import Mathlib

/-!
Verification of the map-range geospatial pipeline.

The development embeds the pipeline's pure logic:
- `searchLocation` (geocode resolution: direct coordinate parse + provider chain),
- `suggestRoute` (route translation, distance/duration/cost formatting),
- `translateInstruction` / `translateDirection` (maneuver localization),
- `analyzeLocation` for both backends (Overpass classification and the
  generative-model backend), and
- `calculateDestination` / `getDistance` (geodesic math over ℝ).

Numbers are modelled by ℚ where the code does exact-looking decimal
arithmetic and by ℝ for the transcendental geodesic formulas.  Fallible
operations return `Except`/`Option`; each external HTTP response is an
explicit input to the function that consumes it.
-/

namespace MapRange

/-- Coordinate pair, from `types.ts` (`Location`). -/
structure Location where
  lat : ℚ
  lng : ℚ
  deriving DecidableEq, Repr

/-! ### Character-level helpers (models of JS string primitives) -/

/-- Model of the JS `\d` character class. -/
def isDig (c : Char) : Bool := '0' ≤ c && c ≤ '9'

/-- Model of the whitespace class used by `String.prototype.trim` and the
`\s` class of the coordinate regex (restricted to ASCII whitespace). -/
def isWs (c : Char) : Bool :=
  c = ' ' || c = '\t' || c = '\n' || c = '\r'

/-- Greedy digit span: longest digit prefix together with the rest. -/
def spanDigits : List Char → List Char × List Char
  | [] => ([], [])
  | c :: cs =>
    if isDig c then
      let p := spanDigits cs
      (c :: p.1, p.2)
    else ([], c :: cs)

/-- Greedy separator span for the `[,\s]+` part of the coordinate regex. -/
def spanSeps : List Char → List Char × List Char
  | [] => ([], [])
  | c :: cs =>
    if c = ',' || isWs c then
      let p := spanSeps cs
      (c :: p.1, p.2)
    else ([], c :: cs)

/-- Model of `String.prototype.trim`: drop leading and trailing whitespace. -/
def jsTrim (s : String) : List Char :=
  ((s.toList.dropWhile isWs).reverse.dropWhile isWs).reverse

/-- Digits to a natural number, most significant first. -/
def digitsToNat (ds : List Char) : ℕ :=
  ds.foldl (fun n c => n * 10 + (c.toNat - '0'.toNat)) 0

/-- Value of a decimal numeral of the shape `[-+]?digits.digits` or
`[-+]?digits`, as produced by `parseFloat` on a regex-matched group
(such groups always denote finite numbers, never NaN). -/
def parseDecCore (cs : List Char) : ℚ :=
  let p := spanDigits cs
  match p.2 with
  | '.' :: f =>
    let q := spanDigits f
    (digitsToNat p.1 : ℚ) + (digitsToNat q.1 : ℚ) / 10 ^ q.1.length
  | _ => (digitsToNat p.1 : ℚ)

/-- Signed decimal numeral value (model of `parseFloat` on a match group). -/
def parseDec (cs : List Char) : ℚ :=
  match cs with
  | '-' :: r => -(parseDecCore r)
  | '+' :: r => parseDecCore r
  | r => parseDecCore r

/-- Match `[-+]?\d{1,maxInt}\.\d+` at the head of `cs`, returning the matched
characters and the rest.  The regex engine's greedy `\d{1,maxInt}` with
backtracking is realized directly: the digit run before the mandatory `'.'`
must have length between 1 and `maxInt` (if the run is longer, every
backtracking choice still faces a digit where `'.'` is required, so the
engine fails — the behaviours coincide). -/
def matchNum (maxInt : ℕ) (cs : List Char) : Option (List Char × List Char) :=
  let sp : List Char × List Char :=
    match cs with
    | '+' :: r => (['+'], r)
    | '-' :: r => (['-'], r)
    | r => ([], r)
  let d := spanDigits sp.2
  if d.1.length < 1 || maxInt < d.1.length then none
  else
    match d.2 with
    | '.' :: rest =>
      let f := spanDigits rest
      if f.1.length < 1 then none
      else some (sp.1 ++ d.1 ++ '.' :: f.1, f.2)
    | _ => none

/-- Match the whole pattern
`([-+]?\d{1,2}\.\d+)[,\s]+([-+]?\d{1,3}\.\d+)` anchored at the head,
returning the two capture groups.  Greedy `[,\s]+` is safe because separator
characters are disjoint from sign and digit characters. -/
def matchPairAt (cs : List Char) : Option (List Char × List Char) :=
  match matchNum 2 cs with
  | none => none
  | some g1 =>
    let s := spanSeps g1.2
    if s.1.isEmpty then none
    else
      match matchNum 3 s.2 with
      | none => none
      | some g2 => some (g1.1, g2.1)

/-- Leftmost match of the coordinate regex (JS `String.prototype.match`
scans start positions left to right). -/
def coordScan : List Char → Option (List Char × List Char)
  | [] => none
  | c :: cs =>
    match matchPairAt (c :: cs) with
    | some r => some r
    | none => coordScan cs

/-! ### `searchLocation` (src/services/apiService.ts) -/

/-- Step 1 of `searchLocation`: the direct coordinate-parse branch.  It
yields a location exactly when the regex matches and both parsed values are
in range; otherwise control falls through to the provider chain.  (The
source's `isNaN` guards are vacuous: regex-matched groups always parse to
finite numbers.) -/
def directParse (cs : List Char) : Option Location :=
  match coordScan cs with
  | none => none
  | some g =>
    if -90 ≤ parseDec g.1 ∧ parseDec g.1 ≤ 90 ∧
        -180 ≤ parseDec g.2 ∧ parseDec g.2 ≤ 180 then
      some ⟨parseDec g.1, parseDec g.2⟩
    else none

/-- Outcome of one provider's `fetch`+JSON step: `err` models a thrown
network/parse exception caught by the surrounding `try`/`catch`. -/
inductive FetchResult (α : Type) where
  | err : FetchResult α
  | ok : α → FetchResult α
  deriving DecidableEq

/-- One ArcGIS candidate (`data.candidates[i]`); `x` is longitude, `y` is
latitude. -/
structure ArcGISCandidate where
  address : String
  x : ℚ
  y : ℚ
  score : ℚ
  deriving DecidableEq

/-- One Photon feature; `coordinates` is the GeoJSON `[lng, lat]` pair of
`features[i].geometry.coordinates`. -/
structure PhotonFeature where
  coordinates : ℚ × ℚ
  deriving DecidableEq

/-- One Nominatim entry; `lat`/`lon` hold the values `parseFloat` extracts
from the response's decimal strings. -/
structure NominatimEntry where
  lat : ℚ
  lon : ℚ
  display_name : String
  deriving DecidableEq

/-- The three provider responses consumed by one `searchLocation` call.
`Option` on the list models a response JSON whose result array is absent or
null (`data.candidates`, `data.features`, `data` respectively). -/
structure Providers where
  arcgis : FetchResult (Option (List ArcGISCandidate))
  photon : FetchResult (Option (List PhotonFeature))
  nominatim : FetchResult (Option (List NominatimEntry))

/-- The user-facing not-found message thrown when every provider fails. -/
def notFoundMsg : String := "ไม่พบสถานที่ดังกล่าว กรุณาลองระบุชื่อที่ชัดเจนขึ้น"

/-- Steps 2–4 of `searchLocation`: ArcGIS, then Photon, then Nominatim.
A provider is used when its fetch succeeded, its result array is present,
and the array is non-empty; any other outcome falls through to the next
provider, and exhaustion throws the not-found error. -/
def providerChain (p : Providers) : Except String Location :=
  match p.arcgis with
  | .ok (some (c :: _)) => .ok ⟨c.y, c.x⟩
  | _ =>
    match p.photon with
    | .ok (some (f :: _)) => .ok ⟨f.coordinates.2, f.coordinates.1⟩
    | _ =>
      match p.nominatim with
      | .ok (some (r :: _)) => .ok ⟨r.lat, r.lon⟩
      | _ => .error notFoundMsg

/-- `searchLocation` from `apiService.ts`: trim the query, try the direct
coordinate parse, otherwise run the provider chain. -/
def searchLocation (query : String) (p : Providers) : Except String Location :=
  match directParse (jsTrim query) with
  | some loc => .ok loc
  | none => providerChain p

/-! ### Maneuver localization (src/services/apiService.ts) -/

/-- Lookup table of `translateDirection`, keyed by OSRM modifier. -/
def directionLookup (m : String) : Option String :=
  if m = "left" then some "ซ้าย"
  else if m = "right" then some "ขวา"
  else if m = "slight left" then some "เบี่ยงซ้าย"
  else if m = "slight right" then some "เบี่ยงขวา"
  else if m = "sharp left" then some "ซ้ายหักศอก"
  else if m = "sharp right" then some "ขวาหักศอก"
  else if m = "straight" then some "ตรงไป"
  else if m = "uturn" then some "กลับรถ"
  else none

/-- `translateDirection`: missing or empty modifier (both falsy in JS) maps
to `""`; otherwise the lookup table, with the untranslated modifier as
fallback (`map[modifier] || modifier`). -/
def translateDirection (modifier : Option String) : String :=
  match modifier with
  | none => ""
  | some m => if m = "" then "" else (directionLookup m).getD m

/-- The `roadName` binding of `translateInstruction`:
`name && name !== "road" ? ` ${name}` : ""`. -/
def roadNameOf (name : String) : String :=
  if name ≠ "" ∧ name ≠ "road" then " " ++ name else ""

/-- The `roadPrefix` binding of `translateInstruction`:
`roadName ? "เข้าสู่" : ""`. -/
def roadPrefixOf (name : String) : String :=
  if roadNameOf name ≠ "" then "เข้าสู่" else ""

/-- The maneuver types handled by named cases of the `switch` in
`translateInstruction`; every other type takes the generic fallback. -/
def knownManeuverTypes : List String :=
  ["depart", "arrive", "turn", "merge", "on ramp", "off ramp", "fork",
   "end of road", "roundabout", "rotary", "exit roundabout", "new name",
   "continue", "notification"]

/-- `translateInstruction`: localize one OSRM maneuver into Thai. -/
def translateInstruction (type : String) (modifier : Option String)
    (name : String) : String :=
  let dir := translateDirection modifier
  let roadName := roadNameOf name
  let roadPre := roadPrefixOf name
  match type with
  | "depart" =>
      "เริ่มต้น มุ่งหน้าไปทาง" ++ dir ++ " " ++
        (if name ≠ "" then "ไปตาม" ++ roadName else "")
  | "arrive" =>
      "ถึงจุดหมาย" ++ (if roadName ≠ "" then " ที่" ++ roadName else "")
  | "turn" => "เลี้ยว" ++ dir ++ " " ++ roadPre ++ roadName
  | "merge" => "เบี่ยง" ++ dir ++ " เพื่อเชื่อมต่อกับ" ++ roadName
  | "on ramp" => "ชิด" ++ dir ++ " เพื่อขึ้นทางลาด/ทางด่วน" ++ roadName
  | "off ramp" => "ชิด" ++ dir ++ " เพื่อลงจากทางลาด/ทางด่วน" ++ roadName
  | "fork" => "ที่ทางแยก ชิด" ++ dir ++ " " ++ roadPre ++ roadName
  | "end of road" => "เลี้ยว" ++ dir ++ " เมื่อสุดทาง" ++ roadName
  | "roundabout" => "ที่วงเวียน ใช้ทางออก" ++ dir
  | "rotary" => "เข้าวงเวียน " ++ roadPre ++ roadName
  | "exit roundabout" => "ออกจากวงเวียน " ++ roadPre ++ roadName
  | "new name" => "ขับต่อไปยัง" ++ roadName
  | "continue" => "ขับต่อไปยัง" ++ roadName
  | "notification" => "โปรดระวัง: " ++ dir
  | _ => type ++ " " ++ dir ++ " " ++ roadPre ++ roadName

/-! ### Distance formatting (shared rule of `formatPlace` and
`suggestRoute`) -/

/-- Model of JS `x.toFixed(0)` for non-negative `x`: round half away from
zero (for non-negative arguments, half up), rendered in decimal. -/
def jsToFixed0 (q : ℚ) : String := toString ⌊q + 1/2⌋

/-- Model of JS `x.toFixed(1)` for non-negative `x`: one decimal digit,
rounding half up. -/
def jsToFixed1 (q : ℚ) : String :=
  toString (⌊q * 10 + 1/2⌋ / 10) ++ "." ++ toString (⌊q * 10 + 1/2⌋ % 10)

/-- Distance string of a route step in `suggestRoute` (input in meters):
`step.distance < 1000 ? `${step.distance.toFixed(0)} ม.` :
`${(step.distance / 1000).toFixed(1)} กม.``. -/
def routeStepDistStr (m : ℚ) : String :=
  if m < 1000 then jsToFixed0 m ++ " ม."
  else jsToFixed1 (m / 1000) ++ " กม."

/-- Distance string of a POI in `formatPlace` (input in kilometers):
`distKm < 1 ? `${(distKm * 1000).toFixed(0)} ม.` :
`${distKm.toFixed(1)} กม.``. -/
def formatPlaceDistStr (distKm : ℚ) : String :=
  if distKm < 1 then jsToFixed0 (distKm * 1000) ++ " ม."
  else jsToFixed1 distKm ++ " กม."

/-! ### `suggestRoute` (src/services/apiService.ts) -/

/-- One OSRM step (`route.legs[i].steps[j]`). -/
structure OSRMStep where
  maneuverType : String
  maneuverModifier : Option String
  mode : String
  duration : ℚ
  distance : ℚ
  name : String

/-- One OSRM leg. -/
structure OSRMLeg where
  steps : List OSRMStep

/-- One OSRM route; `coordinates` is the GeoJSON `[lng, lat]` sequence. -/
structure OSRMRoute where
  distance : ℚ
  duration : ℚ
  coordinates : List (ℚ × ℚ)
  legs : List OSRMLeg

/-- An OSRM response; `none` models a body with no `routes` array. -/
structure OSRMRouteResponse where
  routes : Option (List OSRMRoute)

/-- A translated route step (`RouteOption.steps[i]` of `types.ts`). -/
structure RouteStep where
  instruction : String
  distance : String
  duration : String
  mode : String

/-- A route option (`types.ts`), as built by `suggestRoute`. -/
structure RouteOption where
  id : String
  title : String
  totalDuration : String
  totalDistance : String
  totalCost : String
  steps : List RouteStep
  recommended : Bool
  coordinates : List (ℚ × ℚ)

/-- The user-facing routing-failure message. -/
def routingErrMsg : String := "ไม่สามารถคำนวณเส้นทางได้"

/-- Build the single `RouteOption` of `suggestRoute` from the first route
and its first leg. -/
def buildOption (route : OSRMRoute) (leg : OSRMLeg) : RouteOption :=
  { id := "osrm-driving"
    title := "รถยนต์ส่วนตัว / แท็กซี่"
    totalDuration := toString (⌈route.duration / 60⌉ : ℤ) ++ " นาที"
    totalDistance := jsToFixed1 (route.distance / 1000) ++ " กม."
    totalCost := "~" ++ toString (⌈(35 : ℚ) + route.distance / 1000 * 6⌉ : ℤ) ++ " บาท"
    steps := leg.steps.map fun s =>
      { instruction := translateInstruction s.maneuverType s.maneuverModifier s.name
        distance := routeStepDistStr s.distance
        duration := toString (⌈(s.duration / 60 : ℚ)⌉ : ℤ) ++ " นาที"
        mode := "car" }
    recommended := true
    coordinates := route.coordinates.map fun c => (c.2, c.1) }

/-- `suggestRoute` on a given OSRM response.  A missing or empty `routes`
array throws "No route found", and an empty `legs` array makes
`route.legs[0].steps` throw a `TypeError`; the surrounding `catch`
collapses every throw into the single routing error. -/
def suggestRoute (resp : OSRMRouteResponse) : Except String (List RouteOption) :=
  match resp.routes with
  | none => .error routingErrMsg
  | some [] => .error routingErrMsg
  | some (route :: _) =>
    match route.legs with
    | [] => .error routingErrMsg
    | leg :: _ => .ok [buildOption route leg]

/-! ### Overpass backend of `analyzeLocation`
(src/services/geminiService.ts) -/

/-- Substring test on character lists (model of JS
`String.prototype.includes`). -/
def hasPref : List Char → List Char → Bool
  | [], _ => true
  | _ :: _, [] => false
  | a :: as, b :: bs => a = b && hasPref as bs

/-- Whether `pat` occurs inside `hay` (model of `name.includes(pat)`). -/
def containsSub (hay pat : List Char) : Bool :=
  match hay with
  | [] => hasPref pat []
  | c :: cs => hasPref pat (c :: cs) || containsSub cs pat

/-- Substring containment on `String` (JS `includes`). -/
def jsIncludes (s pat : String) : Bool := containsSub s.toList pat.toList

/-- The tag map of one Overpass element, restricted to the keys the
classification chain reads.  `none` models an absent key; the JS code also
treats the empty string as falsy where it tests bare truthiness. -/
structure Tags where
  name : Option String := none
  landuse : Option String := none
  place : Option String := none
  building : Option String := none
  shop : Option String := none
  amenity : Option String := none
  public_transport : Option String := none
  railway : Option String := none
  highway : Option String := none
  leisure : Option String := none
  office : Option String := none
  deriving DecidableEq

/-- One Overpass element; `tags` is `none` when the element carries no tag
object (the loop then skips it). -/
structure OverpassElement where
  id : ℤ
  lat : ℚ
  lon : ℚ
  tags : Option Tags

/-- Residential predicate: `t.landuse === "residential" ||
t.place === "suburb" || t.building === "apartments"`. -/
def pResidential (t : Tags) : Bool :=
  t.landuse = some "residential" || t.place = some "suburb" ||
    t.building = some "apartments"

/-- Convenience predicate: `t.shop === "convenience" ||
t.name?.includes("7-Eleven") || t.name?.includes("Lotus")`. -/
def pConvenience (t : Tags) : Bool :=
  t.shop = some "convenience" ||
    (match t.name with
     | some n => jsIncludes n "7-Eleven" || jsIncludes n "Lotus"
     | none => false)

/-- Shopping predicate. -/
def pShopping (t : Tags) : Bool :=
  t.shop = some "supermarket" || t.shop = some "mall" ||
    t.shop = some "department_store" || t.amenity = some "marketplace"

/-- Food predicate. -/
def pFood (t : Tags) : Bool :=
  t.amenity = some "restaurant" || t.amenity = some "cafe" ||
    t.amenity = some "fast_food" || t.amenity = some "food_court"

/-- Transport predicate; `t.public_transport` is a bare truthiness test, so
any present non-empty string counts. -/
def pTransport (t : Tags) : Bool :=
  (match t.public_transport with
   | some s => s ≠ ""
   | none => false) ||
    t.railway = some "station" || t.highway = some "bus_stop" ||
    t.amenity = some "bus_station"

/-- Recreation predicate. -/
def pRecreation (t : Tags) : Bool :=
  t.leisure = some "park" || t.leisure = some "fitness_centre" ||
    t.leisure = some "sports_centre" || t.leisure = some "playground"

/-- Public-service predicate. -/
def pPublicService (t : Tags) : Bool :=
  t.amenity = some "post_office" || t.amenity = some "police" ||
    t.amenity = some "hospital" || t.amenity = some "clinic" ||
    t.office = some "government"

/-- The seven POI categories of `AnalysisResult`. -/
inductive Category where
  | residential | convenience | shopping | food | transport
  | recreation | public_service
  deriving DecidableEq, Repr

/-- The fixed priority order in which the `else if` chain evaluates the
category predicates. -/
def priorityOrder : List Category :=
  [.residential, .convenience, .shopping, .food, .transport,
   .recreation, .public_service]

/-- Predicate of each category, as written in the source chain. -/
def catPred : Category → Tags → Bool
  | .residential => pResidential
  | .convenience => pConvenience
  | .shopping => pShopping
  | .food => pFood
  | .transport => pTransport
  | .recreation => pRecreation
  | .public_service => pPublicService

/-- The classification `else if` chain of `analyzeLocation`: first matching
predicate wins, no match drops the feature. -/
def categorize (t : Tags) : Option Category :=
  if pResidential t then some .residential
  else if pConvenience t then some .convenience
  else if pShopping t then some .shopping
  else if pFood t then some .food
  else if pTransport t then some .transport
  else if pRecreation t then some .recreation
  else if pPublicService t then some .public_service
  else none

/-- Category of one element: skip when it has no tag object. -/
def elemCat (e : OverpassElement) : Option Category :=
  e.tags.bind categorize

/-- The seven category sequences of an `AnalysisResult`, generic in the
item type so that the pipeline can be stated for any item formatter
(`formatPlace` computes a haversine distance string; the classification
never inspects the formatted item). -/
structure SevenLists (β : Type) where
  residential : List β := []
  convenience : List β := []
  shopping : List β := []
  food : List β := []
  transport : List β := []
  recreation : List β := []
  public_service : List β := []

/-- Sequence of one category. -/
def SevenLists.get {β : Type} (r : SevenLists β) : Category → List β
  | .residential => r.residential
  | .convenience => r.convenience
  | .shopping => r.shopping
  | .food => r.food
  | .transport => r.transport
  | .recreation => r.recreation
  | .public_service => r.public_service

/-- Append one item to the sequence of one category (JS `push`). -/
def pushCat {β : Type} (r : SevenLists β) (c : Category) (b : β) : SevenLists β :=
  match c with
  | .residential => { r with residential := r.residential ++ [b] }
  | .convenience => { r with convenience := r.convenience ++ [b] }
  | .shopping => { r with shopping := r.shopping ++ [b] }
  | .food => { r with food := r.food ++ [b] }
  | .transport => { r with transport := r.transport ++ [b] }
  | .recreation => { r with recreation := r.recreation ++ [b] }
  | .public_service => { r with public_service := r.public_service ++ [b] }

/-- Body of the `elements.forEach` loop: skip untagged elements, format the
item, and push it onto the first category whose predicate matches. -/
def classifyStep {β : Type} (fmt : OverpassElement → β)
    (r : SevenLists β) (e : OverpassElement) : SevenLists β :=
  match e.tags with
  | none => r
  | some t =>
    let item := fmt e
    if pResidential t then { r with residential := r.residential ++ [item] }
    else if pConvenience t then { r with convenience := r.convenience ++ [item] }
    else if pShopping t then { r with shopping := r.shopping ++ [item] }
    else if pFood t then { r with food := r.food ++ [item] }
    else if pTransport t then { r with transport := r.transport ++ [item] }
    else if pRecreation t then { r with recreation := r.recreation ++ [item] }
    else if pPublicService t then { r with public_service := r.public_service ++ [item] }
    else r

/-- The whole `forEach` classification pass over the response elements. -/
def classifyAll {β : Type} (fmt : OverpassElement → β)
    (es : List OverpassElement) : SevenLists β :=
  es.foldl (classifyStep fmt) {}

/-- `const limit = (arr) => arr.slice(0, 10)` applied to all seven
sequences. -/
def limitAll {β : Type} (r : SevenLists β) : SevenLists β :=
  { residential := r.residential.take 10
    convenience := r.convenience.take 10
    shopping := r.shopping.take 10
    food := r.food.take 10
    transport := r.transport.take 10
    recreation := r.recreation.take 10
    public_service := r.public_service.take 10 }

/-- Category sequences produced by the Overpass `analyzeLocation` for a
given response: classify every element, then truncate each sequence to 10.
(The surrounding name/summary strings and the item formatter do not affect
the sequences' shape.) -/
def analyzeLocationOverpass {β : Type} (fmt : OverpassElement → β)
    (es : List OverpassElement) : SevenLists β :=
  limitAll (classifyAll fmt es)

/-! ### Generative-model backend of `analyzeLocation`
(the alternate service module) -/

/-- One place item parsed from the model's JSON response. -/
structure RawPlace where
  name : String
  distance : String
  lat : Option ℚ := none
  lng : Option ℚ := none
  popularity : ℚ
  rating : Option ℚ := none
  reviews : Option ℚ := none
  deriving DecidableEq

/-- A place item after the `{ ...i, source: 'gemini' }` spread. -/
structure TaggedPlace where
  base : RawPlace
  source : String
  deriving DecidableEq

/-- The parsed model response: seven category arrays (modelled as optional,
matching the `items?.map(...) || []` guard). -/
structure GeminiResponse where
  locationName : String
  summary : String
  residential : Option (List RawPlace) := none
  convenience : Option (List RawPlace) := none
  shopping : Option (List RawPlace) := none
  food : Option (List RawPlace) := none
  transport : Option (List RawPlace) := none
  recreation : Option (List RawPlace) := none
  public_service : Option (List RawPlace) := none

/-- Category array of the parsed response. -/
def GeminiResponse.get (resp : GeminiResponse) : Category → Option (List RawPlace)
  | .residential => resp.residential
  | .convenience => resp.convenience
  | .shopping => resp.shopping
  | .food => resp.food
  | .transport => resp.transport
  | .recreation => resp.recreation
  | .public_service => resp.public_service

/-- `const enhance = (items) => items?.map(i => ({ ...i, source: 'gemini' })) || []`. -/
def enhance (items : Option (List RawPlace)) : List TaggedPlace :=
  (items.map (List.map fun i => ⟨i, "gemini"⟩)).getD []

/-- The generative backend's `analyzeLocation` on an already-parsed
response: it only re-tags each category array with a provenance field and
returns it — no truncation, no reordering. -/
def analyzeLocationGemini (resp : GeminiResponse) : SevenLists TaggedPlace :=
  { residential := enhance resp.residential
    convenience := enhance resp.convenience
    shopping := enhance resp.shopping
    food := enhance resp.food
    transport := enhance resp.transport
    recreation := enhance resp.recreation
    public_service := enhance resp.public_service }

/-! ### Geodesic math over ℝ (`getDistance` in geminiService.ts,
`calculateDestination` in MapView.tsx) -/

/-- JS `Math.atan2(y, x)`: the argument of the point `(x, y)`, in
`(-π, π]` (with `atan2 0 0 = 0`, as in JS). -/
noncomputable def atan2 (y x : ℝ) : ℝ := Complex.arg ⟨x, y⟩

/-- The haversine helper `getDistance` of `analyzeLocation` (Earth radius
6371 km, result in kilometers). -/
noncomputable def getDistance (lat1 lon1 lat2 lon2 : ℝ) : ℝ :=
  let R : ℝ := 6371
  let dLat := (lat2 - lat1) * Real.pi / 180
  let dLon := (lon2 - lon1) * Real.pi / 180
  let a :=
    Real.sin (dLat / 2) * Real.sin (dLat / 2) +
      Real.cos (lat1 * Real.pi / 180) * Real.cos (lat2 * Real.pi / 180) *
        Real.sin (dLon / 2) * Real.sin (dLon / 2)
  let c := 2 * atan2 (Real.sqrt a) (Real.sqrt (1 - a))
  R * c

/-- JS remainder `x % y` on numbers: `x - y * trunc(x / y)` (the result
takes the dividend's sign). -/
noncomputable def jsRem (x y : ℝ) : ℝ :=
  x - y * (if 0 ≤ x / y then (⌊x / y⌋ : ℝ) else (⌈x / y⌉ : ℝ))

/-- Coordinate pair over ℝ returned by the geodesic projection. -/
structure LocationR where
  lat : ℝ
  lng : ℝ

/-- `calculateDestination` of MapView.tsx: spherical direct geodesic with
mean Earth radius 6 371 000 m, longitude normalized by
`(lng2 + 3π) % (2π) - π` under JS remainder semantics. -/
noncomputable def calculateDestination (lat lng distanceMeters bearingDegrees : ℝ) :
    LocationR :=
  let R : ℝ := 6371e3
  let lat1 := lat * Real.pi / 180
  let lng1 := lng * Real.pi / 180
  let brng := bearingDegrees * Real.pi / 180
  let angularDistance := distanceMeters / R
  let lat2 := Real.arcsin (Real.sin lat1 * Real.cos angularDistance +
    Real.cos lat1 * Real.sin angularDistance * Real.cos brng)
  let lng2 := lng1 + atan2
    (Real.sin brng * Real.sin angularDistance * Real.cos lat1)
    (Real.cos angularDistance - Real.sin lat1 * Real.sin lat2)
  let lng2n := jsRem (lng2 + 3 * Real.pi) (2 * Real.pi) - Real.pi
  ⟨lat2 * 180 / Real.pi, lng2n * 180 / Real.pi⟩

/-! ### Derived predicates and concrete inputs used by the theorems -/

/-- First usable element of a provider response: fetch succeeded, result
array present and non-empty. -/
def firstUsable {α : Type} : FetchResult (Option (List α)) → Option α
  | .ok (some (x :: _)) => some x
  | _ => none

/-- A coordinate pair within the valid lat/lng ranges. -/
def candInRange (lat lng : ℚ) : Bool :=
  (-90 ≤ lat && lat ≤ 90) && (-180 ≤ lng && lng ≤ 180)

/-- Every coordinate in a provider response is in range (vacuously true for
failed fetches and absent arrays). -/
def respAll {α : Type} (P : α → Bool) : FetchResult (Option (List α)) → Bool
  | .ok (some l) => l.all P
  | _ => true

/-- Every coordinate pair any of the three providers returned is in
range. -/
def providersValid (p : Providers) : Bool :=
  respAll (fun c => candInRange c.y c.x) p.arcgis &&
    respAll (fun f => candInRange f.coordinates.2 f.coordinates.1) p.photon &&
    respAll (fun r => candInRange r.lat r.lon) p.nominatim

/-- Providers where ArcGIS answers with an out-of-range latitude. -/
def pOutOfRange : Providers := ⟨.ok (some [⟨"bad", 0, 999, 1⟩]), .err, .err⟩

/-- Providers where only ArcGIS answers, with an in-range coordinate. -/
def pArcValid : Providers := ⟨.ok (some [⟨"ok", 100, 13, 1⟩]), .err, .err⟩

/-- Sample ArcGIS candidate (lng 100, lat 13). -/
def wCand : ArcGISCandidate := ⟨"Bangkok", 100, 13, 99⟩

/-- Sample Photon feature (`[lng, lat]` = `[101, 14]`). -/
def wFeat : PhotonFeature := ⟨(101, 14)⟩

/-- Sample Nominatim entry. -/
def wNom : NominatimEntry := ⟨15, 102, "Bangkok"⟩

/-- All three providers answer; ArcGIS must win. -/
def pArcWins : Providers := ⟨.ok (some [wCand]), .ok (some [wFeat]), .ok (some [wNom])⟩

/-- ArcGIS fails; Photon answers and must win. -/
def pPhotonWins : Providers := ⟨.err, .ok (some [wFeat]), .ok (some [wNom])⟩

/-- ArcGIS fails and Photon is empty; Nominatim answers. -/
def pNomWins : Providers := ⟨.err, .ok (some []), .ok (some [wNom])⟩

/-- Every provider yields nothing (error, absent array, empty array). -/
def pAllFail : Providers := ⟨.err, .ok none, .ok (some [])⟩

/-- Concrete OSRM route of exactly 10 km with one (empty) leg. -/
def wRoute : OSRMRoute :=
  { distance := 10000, duration := 600, coordinates := [], legs := [⟨[]⟩] }

/-- OSRM response containing only `wRoute`. -/
def wResp : OSRMRouteResponse := ⟨some [wRoute]⟩

/-- Sample place item of the generative backend's response. -/
def rpSample : RawPlace := { name := "ร้านตัวอย่าง", distance := "0.1 กม.", popularity := 1/2 }

/-- Generative-backend response whose convenience array has 11 items. -/
def respEleven : GeminiResponse :=
  { locationName := "พื้นที่ตัวอย่าง", summary := "สรุป",
    convenience := some (List.replicate 11 rpSample) }

/-- Tags matching both the convenience predicate (shop tag and chain-name
substring) and the food predicate. -/
def tMulti : Tags :=
  { name := some "7-Eleven สาขาตัวอย่าง", shop := some "convenience",
    amenity := some "restaurant" }

/-! ## Helper lemmas -/

/-- Pushing onto category `c'` extends exactly the sequence of `c'`. -/
theorem SevenLists.get_push {β : Type} (r : SevenLists β) (c' c : Category) (b : β) :
    (pushCat r c' b).get c = if c' = c then r.get c ++ [b] else r.get c := by
  cases c' <;> cases c <;> simp [pushCat, SevenLists.get]

/-- The loop body pushes the formatted item onto the category chosen by
`categorize`, and does nothing for unclassified or untagged elements. -/
theorem classifyStep_eq {β : Type} (fmt : OverpassElement → β)
    (r : SevenLists β) (e : OverpassElement) :
    classifyStep fmt r e =
      match elemCat e with
      | none => r
      | some c => pushCat r c (fmt e) := by
  cases htags : e.tags with
  | none => simp [classifyStep, elemCat, htags]
  | some t =>
    simp only [classifyStep, elemCat, htags, Option.bind_some, categorize]
    by_cases h1 : pResidential t <;> simp [h1, pushCat]
    by_cases h2 : pConvenience t <;> simp [h2, pushCat]
    by_cases h3 : pShopping t <;> simp [h3, pushCat]
    by_cases h4 : pFood t <;> simp [h4, pushCat]
    by_cases h5 : pTransport t <;> simp [h5, pushCat]
    by_cases h6 : pRecreation t <;> simp [h6, pushCat]
    by_cases h7 : pPublicService t <;> simp [h7, pushCat]

/-- The classification fold appends, per category, exactly the formatted
elements classified into it, in traversal order. -/
theorem classifyFold_get {β : Type} (fmt : OverpassElement → β)
    (es : List OverpassElement) (acc : SevenLists β) (c : Category) :
    (es.foldl (classifyStep fmt) acc).get c =
      acc.get c ++ (es.filter fun e => elemCat e = some c).map fmt := by
  induction es generalizing acc with
  | nil => simp
  | cons e es ih =>
    rw [List.foldl_cons, ih, classifyStep_eq]
    cases hc : elemCat e with
    | none => simp [List.filter_cons, hc]
    | some c' =>
      rw [SevenLists.get_push]
      by_cases hcc : c' = c
      · subst hcc
        simp [List.filter_cons, hc]
      · simp [List.filter_cons, hc, hcc]

/-- `classifyAll` in terms of `filter`/`map`. -/
theorem classifyAll_get {β : Type} (fmt : OverpassElement → β)
    (es : List OverpassElement) (c : Category) :
    (classifyAll fmt es).get c = (es.filter fun e => elemCat e = some c).map fmt := by
  have h := classifyFold_get fmt es {} c
  have hempty : (({} : SevenLists β)).get c = [] := by cases c <;> rfl
  rw [classifyAll, h, hempty, List.nil_append]

/-- `limitAll` truncates every sequence to 10. -/
theorem limitAll_get {β : Type} (r : SevenLists β) (c : Category) :
    (limitAll r).get c = (r.get c).take 10 := by
  cases c <;> rfl

/-- `categorize` is the first-match scan of the predicates in priority
order. -/
theorem categorize_eq_find (t : Tags) :
    categorize t = priorityOrder.find? (fun c => catPred c t) := by
  simp only [categorize, priorityOrder, List.find?, catPred]
  by_cases h1 : pResidential t <;> simp [h1]
  by_cases h2 : pConvenience t <;> simp [h2]
  by_cases h3 : pShopping t <;> simp [h3]
  by_cases h4 : pFood t <;> simp [h4]
  by_cases h5 : pTransport t <;> simp [h5]
  by_cases h6 : pRecreation t <;> simp [h6]
  by_cases h7 : pPublicService t <;> simp [h7]

/-! ## Claim theorems -/

/-- C3 (counterexample): the generative backend does not truncate category
sequences — a response whose convenience array has 11 items yields an
`AnalysisResult` whose convenience sequence has 11 items, violating the
claimed ≤ 10 bound for that backend. -/
theorem gemini_truncation_counterexample :
    ((analyzeLocationGemini respEleven).get .convenience).length = 11 ∧
    ¬ ((analyzeLocationGemini respEleven).get .convenience).length ≤ 10 := by
  have h : ((analyzeLocationGemini respEleven).get .convenience).length = 11 := rfl
  exact ⟨h, by rw [h]; decide⟩

/-- C3 (amended): in the Overpass backend, each of the seven category
sequences is the first ten (in discovery order, no re-sorting) of the
elements classified into that category, hence has length at most 10; the
generative backend instead returns each category sequence with exactly the
length of the corresponding array of the model response, without
truncation. -/
theorem category_truncation_amended :
    (∀ (β : Type) (fmt : OverpassElement → β) (es : List OverpassElement) (c : Category),
      (analyzeLocationOverpass fmt es).get c =
        ((es.filter fun e => elemCat e = some c).map fmt).take 10 ∧
      ((analyzeLocationOverpass fmt es).get c).length ≤ 10) ∧
    (∀ (resp : GeminiResponse) (c : Category),
      ((analyzeLocationGemini resp).get c).length = ((resp.get c).getD []).length) := by
  constructor
  · intro β fmt es c
    have h : (analyzeLocationOverpass fmt es).get c =
        ((es.filter fun e => elemCat e = some c).map fmt).take 10 := by
      rw [analyzeLocationOverpass, limitAll_get, classifyAll_get]
    refine ⟨h, ?_⟩
    rw [h]
    exact le_trans (List.length_take_le 10 _) (le_refl 10)
  · intro resp c
    have hlen : ∀ items : Option (List RawPlace),
        (enhance items).length = (items.getD []).length := by
      intro items
      cases items <;> simp [enhance]
    cases c <;> simp [analyzeLocationGemini, SevenLists.get, GeminiResponse.get, hlen]

/-- C4: every feature is assigned to exactly one category or dropped — the
classification is the first-match scan of the seven fixed predicates in the
priority order residential → convenience → shopping → food → transport →
recreation → public_service; a feature matching no predicate is classified
into no category; the classification is a function (a feature is never in
two categories); and each category's sequence consists exactly of the
elements classified into that category. -/
theorem classification_exclusive :
    (∀ t : Tags, categorize t = priorityOrder.find? (fun c => catPred c t)) ∧
    (∀ t : Tags, categorize t = none ↔ ∀ c : Category, ¬ catPred c t) ∧
    (∀ (t : Tags) (c₁ c₂ : Category),
      categorize t = some c₁ → categorize t = some c₂ → c₁ = c₂) ∧
    (∀ (β : Type) (fmt : OverpassElement → β) (es : List OverpassElement) (c : Category),
      (classifyAll fmt es).get c = (es.filter fun e => elemCat e = some c).map fmt) := by
  refine ⟨categorize_eq_find, ?_, ?_, fun β => classifyAll_get⟩
  · intro t
    rw [categorize_eq_find, List.find?_eq_none]
    constructor
    · intro h c
      have hc : c ∈ priorityOrder := by cases c <;> simp [priorityOrder]
      simpa using h c hc
    · intro h c _
      simpa using h c
  · intro t c₁ c₂ h1 h2
    rw [h1] at h2
    exact (Option.some_inj.mp h2)

/-- Witness for C4 at a multi-predicate feature: `tMulti` satisfies both
the convenience and the food predicate, and is classified (only) as
convenience. -/
theorem classification_exclusive_witness :
    (pConvenience tMulti ∧ pFood tMulti) ∧
    categorize tMulti = priorityOrder.find? (fun c => catPred c tMulti) ∧
    Category.convenience = Category.convenience :=
  ⟨by decide,
   classification_exclusive.1 tMulti,
   classification_exclusive.2.2.1 tMulti .convenience .convenience rfl rfl⟩

/-- C2: the distance-formatting rule switches representation exactly at
1000 m — strictly below 1000 m it renders the rounded integer meter count
with the meter unit, at 1000 m or above it renders kilometers with one
decimal digit — and the POI formatter of `formatPlace` (which compares
kilometers against 1) agrees with the route-step formatter of
`suggestRoute` (which compares meters against 1000) on every non-negative
distance: feeding the same distance (as kilometers resp. meters) produces
the identical string. -/
theorem distance_format_agreement (m : ℚ) (h : 0 ≤ m) :
    formatPlaceDistStr (m / 1000) = routeStepDistStr m ∧
    (m < 1000 → routeStepDistStr m = jsToFixed0 m ++ " ม.") ∧
    (1000 ≤ m → routeStepDistStr m = jsToFixed1 (m / 1000) ++ " กม.") := by
  refine ⟨?_, ?_, ?_⟩
  · unfold formatPlaceDistStr routeStepDistStr
    have hcancel : m / 1000 * 1000 = m :=
      div_mul_cancel₀ m (by norm_num : (1000 : ℚ) ≠ 0)
    by_cases hm : m < 1000
    · rw [if_pos ((div_lt_one (by norm_num : (0:ℚ) < 1000)).mpr hm), if_pos hm, hcancel]
    · rw [if_neg fun hc => hm ((div_lt_one (by norm_num : (0:ℚ) < 1000)).mp hc),
        if_neg hm]
  · intro hm
    unfold routeStepDistStr
    rw [if_pos hm]
  · intro hm
    unfold routeStepDistStr
    rw [if_neg (not_lt.mpr hm)]

/-- Witness for C2 at the switch point 1000 m (= 1 km). -/
theorem distance_format_agreement_witness :
    (0 : ℚ) ≤ 1000 ∧ formatPlaceDistStr (1000 / 1000) = routeStepDistStr 1000 :=
  ⟨by norm_num, (distance_format_agreement 1000 (by norm_num)).1⟩

/-- C7: whenever `suggestRoute` succeeds (response with a first route that
has a first leg), the returned option's total cost is
`~⌈35 + 6·totalDistanceKm⌉ บาท` for the route's total distance in
kilometers, and a route of exactly 10 km yields cost 95. -/
theorem suggestRoute_cost_formula (resp : OSRMRouteResponse) (route : OSRMRoute)
    (rs : List OSRMRoute) (leg : OSRMLeg) (ls : List OSRMLeg)
    (h1 : resp.routes = some (route :: rs)) (h2 : route.legs = leg :: ls) :
    suggestRoute resp = .ok [buildOption route leg] ∧
    (buildOption route leg).totalCost =
      "~" ++ toString (⌈(35 : ℚ) + route.distance / 1000 * 6⌉ : ℤ) ++ " บาท" ∧
    (route.distance = 10000 → (buildOption route leg).totalCost = "~95 บาท") := by
  refine ⟨?_, rfl, ?_⟩
  · unfold suggestRoute
    simp only [h1, h2]
  · intro hd
    show "~" ++ toString (⌈(35 : ℚ) + route.distance / 1000 * 6⌉ : ℤ) ++ " บาท" = _
    rw [hd]
    have hc : (⌈(35 : ℚ) + 10000 / 1000 * 6⌉ : ℤ) = 95 := by norm_num
    rw [hc]
    rfl

/-- Witness for C7: a concrete 10 km OSRM response prices at 95 baht. -/
theorem suggestRoute_cost_witness :
    suggestRoute wResp = .ok [buildOption wRoute ⟨[]⟩] ∧
    (buildOption wRoute ⟨[]⟩).totalCost = "~95 บาท" :=
  ⟨(suggestRoute_cost_formula wResp wRoute [] ⟨[]⟩ [] rfl rfl).1,
   (suggestRoute_cost_formula wResp wRoute [] ⟨[]⟩ [] rfl rfl).2.2 rfl⟩

/-- C8: a maneuver whose type is none of the fourteen recognized archetypes
is translated by the generic `{type} {direction} {road}` fallback template,
and the result is never the empty string. -/
theorem translateInstruction_unknown_fallback (type : String)
    (modifier : Option String) (name : String)
    (h : type ∉ knownManeuverTypes) :
    translateInstruction type modifier name =
      type ++ " " ++ translateDirection modifier ++ " " ++
        roadPrefixOf name ++ roadNameOf name ∧
    translateInstruction type modifier name ≠ "" := by
  have heq : translateInstruction type modifier name =
      type ++ " " ++ translateDirection modifier ++ " " ++
        roadPrefixOf name ++ roadNameOf name := by
    unfold translateInstruction
    split <;> first
      | rfl
      | exact absurd (by decide) h
  refine ⟨heq, ?_⟩
  rw [heq]
  intro hc
  have hlen := congrArg String.length hc
  simp only [String.length_append] at hlen
  have hsp : (" " : String).length = 1 := rfl
  have hemp : ("" : String).length = 0 := rfl
  rw [hsp, hemp] at hlen
  omega

/-- Witness for C8 at the unrecognized type `"custom_maneuver"`. -/
theorem translateInstruction_unknown_fallback_witness :
    "custom_maneuver" ∉ knownManeuverTypes ∧
    (translateInstruction "custom_maneuver" (some "left") "Main" =
      "custom_maneuver" ++ " " ++ translateDirection (some "left") ++ " " ++
        roadPrefixOf "Main" ++ roadNameOf "Main" ∧
     translateInstruction "custom_maneuver" (some "left") "Main" ≠ "") :=
  ⟨by decide,
   translateInstruction_unknown_fallback "custom_maneuver" (some "left") "Main"
     (by decide)⟩

/-- C5: the query `"13.75,100.50"` resolves to `{lat: 13.75, lng: 100.5}`
by the direct coordinate parse — the result is the same for every state of
the external providers, so none of them is consulted; the non-numeric query
`"Siam Paragon"` and the out-of-range query `"999,999"` (whose numbers also
lack the decimal part required by the coordinate pattern) do not take the
direct-parse branch and proceed to the provider chain. -/
theorem searchLocation_direct_parse_cases :
    (∀ p : Providers, searchLocation "13.75,100.50" p = .ok ⟨13.75, 100.5⟩) ∧
    (∀ p : Providers, searchLocation "Siam Paragon" p = providerChain p) ∧
    (∀ p : Providers, searchLocation "999,999" p = providerChain p) := by
  have hd : directParse (jsTrim "13.75,100.50") = some ⟨13.75, 100.5⟩ := by
    unfold directParse
    rw [show coordScan (jsTrim "13.75,100.50") =
      some (['1','3','.','7','5'], ['1','0','0','.','5','0']) from rfl]
    have hlat : parseDec ['1','3','.','7','5'] = 13.75 := by
      have h1 : parseDec ['1','3','.','7','5'] = ((13:ℕ):ℚ) + ((75:ℕ):ℚ) / 10 ^ 2 := rfl
      rw [h1]; norm_num
    have hlng : parseDec ['1','0','0','.','5','0'] = 100.5 := by
      have h1 : parseDec ['1','0','0','.','5','0'] = ((100:ℕ):ℚ) + ((50:ℕ):ℚ) / 10 ^ 2 := rfl
      rw [h1]; norm_num
    dsimp only
    rw [hlat, hlng]
    rw [if_pos (by norm_num)]
  refine ⟨?_, ?_, ?_⟩
  · intro p
    unfold searchLocation
    rw [hd]
  · intro p
    unfold searchLocation
    rw [show directParse (jsTrim "Siam Paragon") = none from rfl]
  · intro p
    unfold searchLocation
    rw [show directParse (jsTrim "999,999") = none from rfl]

/-- C6: in the provider chain of `searchLocation`, the first provider that
yields a usable (non-empty) result determines the returned coordinates
regardless of what the later providers would return; a provider that fails
or yields nothing is skipped and the chain proceeds; and only when all
three providers yield nothing does the call fail, with the single
not-found error. -/
theorem providerChain_first_success_wins :
    (∀ (p : Providers) (c : ArcGISCandidate) (cs : List ArcGISCandidate),
      p.arcgis = .ok (some (c :: cs)) → providerChain p = .ok ⟨c.y, c.x⟩) ∧
    (∀ (p : Providers) (f : PhotonFeature) (fs : List PhotonFeature),
      firstUsable p.arcgis = none → p.photon = .ok (some (f :: fs)) →
      providerChain p = .ok ⟨f.coordinates.2, f.coordinates.1⟩) ∧
    (∀ (p : Providers) (r : NominatimEntry) (rs : List NominatimEntry),
      firstUsable p.arcgis = none → firstUsable p.photon = none →
      p.nominatim = .ok (some (r :: rs)) → providerChain p = .ok ⟨r.lat, r.lon⟩) ∧
    (∀ p : Providers,
      firstUsable p.arcgis = none → firstUsable p.photon = none →
      firstUsable p.nominatim = none → providerChain p = .error notFoundMsg) := by
  have skipArc : ∀ (p : Providers), firstUsable p.arcgis = none →
      providerChain p =
        (match p.photon with
         | .ok (some (f :: _)) => .ok ⟨f.coordinates.2, f.coordinates.1⟩
         | _ =>
           match p.nominatim with
           | .ok (some (r :: _)) => .ok ⟨r.lat, r.lon⟩
           | _ => .error notFoundMsg) := by
    intro p ha
    unfold providerChain
    rcases harc : p.arcgis with _ | o
    · rfl
    · rcases o with _ | l
      · rfl
      · rcases l with _ | ⟨c, cs⟩
        · rfl
        · rw [harc] at ha
          exact absurd ha (by simp [firstUsable])
  have skipPhoton : ∀ (x : FetchResult (Option (List PhotonFeature)))
      (y : FetchResult (Option (List NominatimEntry))), firstUsable x = none →
      (match x with
       | .ok (some (f :: _)) => Except.ok (⟨f.coordinates.2, f.coordinates.1⟩ : Location)
       | _ =>
         match y with
         | .ok (some (r :: _)) => Except.ok (⟨r.lat, r.lon⟩ : Location)
         | _ => Except.error notFoundMsg) =
      (match y with
       | .ok (some (r :: _)) => Except.ok (⟨r.lat, r.lon⟩ : Location)
       | _ => Except.error notFoundMsg) := by
    intro x y hx
    rcases x with _ | o
    · rfl
    · rcases o with _ | l
      · rfl
      · rcases l with _ | ⟨f, fs⟩
        · rfl
        · exact absurd hx (by simp [firstUsable])
  refine ⟨?_, ?_, ?_, ?_⟩
  · intro p c cs h
    unfold providerChain
    rw [h]
  · intro p f fs ha hp
    rw [skipArc p ha, hp]
  · intro p r rs ha hp hn
    rw [skipArc p ha, skipPhoton _ _ hp, hn]
  · intro p ha hp hn
    rw [skipArc p ha, skipPhoton _ _ hp]
    rcases hnom : p.nominatim with _ | o
    · rfl
    · rcases o with _ | l
      · rfl
      · rcases l with _ | ⟨r, rs⟩
        · rfl
        · rw [hnom] at hn
          exact absurd hn (by simp [firstUsable])

/-- Witness for C6: each conjunct applied at concrete provider states. -/
theorem providerChain_first_success_witness :
    providerChain pArcWins = .ok ⟨wCand.y, wCand.x⟩ ∧
    providerChain pPhotonWins = .ok ⟨wFeat.coordinates.2, wFeat.coordinates.1⟩ ∧
    providerChain pNomWins = .ok ⟨wNom.lat, wNom.lon⟩ ∧
    providerChain pAllFail = .error notFoundMsg :=
  ⟨providerChain_first_success_wins.1 pArcWins wCand [] rfl,
   providerChain_first_success_wins.2.1 pPhotonWins wFeat [] rfl rfl,
   providerChain_first_success_wins.2.2.1 pNomWins wNom [] rfl rfl rfl,
   providerChain_first_success_wins.2.2.2 pAllFail rfl rfl rfl⟩

/-- The direct-parse branch only ever returns in-range coordinates (it
checks both ranges before returning). -/
theorem directParse_inRange {cs : List Char} {loc : Location}
    (h : directParse cs = some loc) :
    -90 ≤ loc.lat ∧ loc.lat ≤ 90 ∧ -180 ≤ loc.lng ∧ loc.lng ≤ 180 := by
  unfold directParse at h
  cases hscan : coordScan cs with
  | none => rw [hscan] at h; exact absurd h (by simp)
  | some g =>
    rw [hscan] at h
    dsimp only at h
    split at h
    · rename_i hcond
      cases h
      exact hcond
    · exact absurd h (by simp)

/-- The chain's successful result always comes verbatim from the first
usable provider response. -/
theorem providerChain_cases (p : Providers) (loc : Location)
    (h : providerChain p = .ok loc) :
    (∃ c cs, p.arcgis = .ok (some (c :: cs)) ∧ loc = ⟨c.y, c.x⟩) ∨
    (∃ f fs, p.photon = .ok (some (f :: fs)) ∧
      loc = ⟨f.coordinates.2, f.coordinates.1⟩) ∨
    (∃ r rs, p.nominatim = .ok (some (r :: rs)) ∧ loc = ⟨r.lat, r.lon⟩) := by
  unfold providerChain at h
  split at h
  · rename_i c cs heq
    cases h
    exact Or.inl ⟨c, cs, heq, rfl⟩
  · split at h
    · rename_i f fs heq
      cases h
      exact Or.inr (Or.inl ⟨f, fs, heq, rfl⟩)
    · split at h
      · rename_i r rs heq
        cases h
        exact Or.inr (Or.inr ⟨r, rs, heq, rfl⟩)
      · exact absurd h (by simp)

/-- The provider chain passes provider coordinates through unvalidated, so
its result is in range whenever every provider-returned coordinate is. -/
theorem providerChain_inRange (p : Providers) (loc : Location)
    (hp : providersValid p = true) (h : providerChain p = .ok loc) :
    -90 ≤ loc.lat ∧ loc.lat ≤ 90 ∧ -180 ≤ loc.lng ∧ loc.lng ≤ 180 := by
  unfold providersValid at hp
  simp only [Bool.and_eq_true] at hp
  obtain ⟨⟨ha, hph⟩, hn⟩ := hp
  obtain ⟨c, cs, heq, rfl⟩ | ⟨f, fs, heq, rfl⟩ | ⟨r, rs, heq, rfl⟩ :=
    providerChain_cases p loc h
  · rw [heq] at ha
    simp only [respAll, List.all_cons, Bool.and_eq_true] at ha
    simpa [candInRange, Bool.and_eq_true, decide_eq_true_eq, and_assoc] using ha.1
  · rw [heq] at hph
    simp only [respAll, List.all_cons, Bool.and_eq_true] at hph
    simpa [candInRange, Bool.and_eq_true, decide_eq_true_eq, and_assoc] using hph.1
  · rw [heq] at hn
    simp only [respAll, List.all_cons, Bool.and_eq_true] at hn
    simpa [candInRange, Bool.and_eq_true, decide_eq_true_eq, and_assoc] using hn.1
/-- C1 (counterexample): provider-returned coordinates are not validated —
with an ArcGIS response whose candidate has latitude 999, `searchLocation`
returns a `Location` whose latitude 999 is out of the valid range, so the
claim fails as stated. -/
theorem searchLocation_range_counterexample :
    searchLocation "somewhere" pOutOfRange = .ok ⟨999, 0⟩ ∧ ¬ ((999 : ℚ) ≤ 90) :=
  ⟨rfl, by decide⟩

/-- C1 (amended): provided every coordinate pair the providers returned is
itself in range, `searchLocation` either fails or returns a `Location`
whose latitude is in [-90, 90] and longitude in [-180, 180]; the
direct-parse branch enforces the ranges unconditionally, while the
provider branches pass coordinates through and rely on the providers. -/
theorem searchLocation_inRange_amended (q : String) (p : Providers) (loc : Location)
    (hp : providersValid p = true) (h : searchLocation q p = .ok loc) :
    -90 ≤ loc.lat ∧ loc.lat ≤ 90 ∧ -180 ≤ loc.lng ∧ loc.lng ≤ 180 := by
  unfold searchLocation at h
  cases hd : directParse (jsTrim q) with
  | some l =>
    rw [hd] at h
    cases h
    exact directParse_inRange hd
  | none =>
    rw [hd] at h
    exact providerChain_inRange p loc hp h

/-- Witness for C1 (amended) at an in-range ArcGIS-only provider state. -/
theorem searchLocation_inRange_witness :
    providersValid pArcValid = true ∧
    (-90 ≤ (Location.mk 13 100).lat ∧ (Location.mk 13 100).lat ≤ 90 ∧
      -180 ≤ (Location.mk 13 100).lng ∧ (Location.mk 13 100).lng ≤ 180) :=
  ⟨by decide, searchLocation_inRange_amended "x" pArcValid ⟨13, 100⟩ (by decide) rfl⟩

/-- C9: the haversine distance helper `getDistance` is symmetric in its two
coordinate points. -/
theorem getDistance_symm (lat1 lon1 lat2 lon2 : ℝ) :
    getDistance lat1 lon1 lat2 lon2 = getDistance lat2 lon2 lat1 lon1 := by
  unfold getDistance
  have key : ∀ x y : ℝ,
      Real.sin ((x - y) * Real.pi / 180 / 2) =
        -Real.sin ((y - x) * Real.pi / 180 / 2) := by
    intro x y
    have hx : (x - y) * Real.pi / 180 / 2 = -((y - x) * Real.pi / 180 / 2) := by ring
    rw [hx, Real.sin_neg]
  dsimp only
  rw [key lat2 lat1, key lon2 lon1]
  ring_nf

/-- Every value of `jsRem` with positive arguments lies in `[0, y)`. -/
theorem jsRem_mem_Ico (x y : ℝ) (hx : 0 < x) (hy : 0 < y) :
    jsRem x y ∈ Set.Ico 0 y := by
  unfold jsRem
  have hq : 0 ≤ x / y := le_of_lt (div_pos hx hy)
  rw [if_pos hq]
  have hy' : y ≠ 0 := ne_of_gt hy
  have hrw : x - y * (⌊x / y⌋ : ℝ) = y * Int.fract (x / y) := by
    rw [Int.fract, mul_sub, mul_div_cancel₀ x hy']
  rw [hrw]
  constructor
  · exact mul_nonneg (le_of_lt hy) (Int.fract_nonneg _)
  · calc y * Int.fract (x / y) < y * 1 :=
        (mul_lt_mul_left hy).mpr (Int.fract_lt_one _)
    _ = y := mul_one y

/-- Core bound for the longitude normalization `(L + θ + 3π) % (2π) - π`
expressed in degrees, for `L ∈ [-π, π]` and `θ ∈ (-π, π]`. -/
theorem normalizeLng_mem_Ico (L θ : ℝ) (hL1 : -Real.pi ≤ L) (hL2 : L ≤ Real.pi)
    (hθ1 : -Real.pi < θ) (hθ2 : θ ≤ Real.pi) :
    (jsRem (L + θ + 3 * Real.pi) (2 * Real.pi) - Real.pi) * 180 / Real.pi ∈
      Set.Ico (-180 : ℝ) 180 := by
  have hπ := Real.pi_pos
  have hx : 0 < L + θ + 3 * Real.pi := by linarith
  have hy : 0 < 2 * Real.pi := by linarith
  obtain ⟨hr1, hr2⟩ := jsRem_mem_Ico (L + θ + 3 * Real.pi) (2 * Real.pi) hx hy
  constructor
  · rw [le_div_iff hπ]
    nlinarith
  · rw [div_lt_iff hπ]
    nlinarith

/-- C10 (counterexample): for the finite origin `(0, -720)` with distance 0
and bearing 0, `calculateDestination` returns longitude −360, outside
`[-180, 180)` — the JS remainder keeps the dividend's sign, so a
sufficiently negative origin longitude escapes the normalization. -/
theorem calculateDestination_lng_counterexample :
    (calculateDestination 0 (-720) 0 0).lng = -360 ∧
      (calculateDestination 0 (-720) 0 0).lng ∉ Set.Ico (-180 : ℝ) 180 := by
  have hπ := Real.pi_pos
  have hπ' : Real.pi ≠ 0 := ne_of_gt hπ
  have hmain : (calculateDestination 0 (-720) 0 0).lng = -360 := by
    unfold calculateDestination
    dsimp only
    rw [show (0 : ℝ) * Real.pi / 180 = 0 by ring,
      show (0 : ℝ) / 6371e3 = 0 by norm_num,
      Real.sin_zero, Real.cos_zero]
    rw [show Real.arcsin (0 * 1 + 1 * 0 * 1) = 0 by norm_num [Real.arcsin_zero]]
    rw [show MapRange.atan2 (0 * 0 * 1) (1 - 0 * Real.sin 0) = 0 by
      unfold MapRange.atan2
      rw [show (⟨1 - 0 * Real.sin 0, 0 * 0 * 1⟩ : ℂ) = (1 : ℂ) by
        simp [Complex.ext_iff]]
      exact Complex.arg_one]
    rw [show (-720 : ℝ) * Real.pi / 180 + 0 + 3 * Real.pi = -Real.pi by ring]
    have hrem : jsRem (-Real.pi) (2 * Real.pi) = -Real.pi := by
      unfold jsRem
      have hq : -Real.pi / (2 * Real.pi) = -(1 / 2) := by
        field_simp
        ring
      rw [hq, if_neg (by norm_num)]
      rw [show ⌈(-(1 / 2) : ℝ)⌉ = 0 by norm_num]
      ring
    rw [hrem]
    field_simp
    ring
  refine ⟨hmain, ?_⟩
  rw [hmain]
  intro hmem
  have := hmem.1
  linarith

/-- C10 (amended): for every origin whose longitude lies in `[-180, 180]`
(the `Location` range invariant) and any finite distance and bearing, the
longitude returned by `calculateDestination` is normalized into
`[-180, 180)`, even when the un-normalized projected longitude falls
outside that range. -/
theorem calculateDestination_lng_normalized (lat lng d brng : ℝ)
    (h1 : -180 ≤ lng) (h2 : lng ≤ 180) :
    (calculateDestination lat lng d brng).lng ∈ Set.Ico (-180 : ℝ) 180 := by
  have hπ := Real.pi_pos
  unfold calculateDestination
  dsimp only
  apply normalizeLng_mem_Ico
  · nlinarith
  · nlinarith
  · exact (Complex.arg_mem_Ioc _).1
  · exact (Complex.arg_mem_Ioc _).2

/-- Witness for C10 (amended) at the origin `(0, 0)`. -/
theorem calculateDestination_lng_witness :
    (-180 : ℝ) ≤ 0 ∧ (0 : ℝ) ≤ 180 ∧
      (calculateDestination 0 0 0 0).lng ∈ Set.Ico (-180 : ℝ) 180 :=
  ⟨by norm_num, by norm_num,
   calculateDestination_lng_normalized 0 0 0 0 (by norm_num) (by norm_num)⟩

end MapRange
